import Mathlib

/-!
Shallow embedding of the feedback system's core
(`utils/database.py`, `utils/llm_handler.py`, and the submission block of
`pages/1_user_dashboard.py`).

Modelling conventions:
* SQLite rows of the `feedback` table become `FeedbackRecord`; the table
  becomes a list in rowid (insertion) order plus the next AUTOINCREMENT id.
* `DATETIME` values (second granularity, `CURRENT_TIMESTAMP`) become `Int`
  seconds; `datetime('now', '-1 day')` becomes `now - 86400`.
* SQL `ORDER BY timestamp DESC` is modelled as a stable sort (ties keep
  table order), matching a full-table scan followed by a sort.
* Python floats are modelled as exact rationals; `round(x, 2)` becomes
  round-half-to-even at two decimal places.
* A remote `_call_api` attempt is modelled by `Option String`: `some s` is a
  successful HTTP round trip returning (already stripped) text `s`, `none`
  is any raised exception (network error, timeout, malformed response).
-/

namespace Feedback

/-- One row of the `feedback` table (`_create_tables`): the three derived
columns are nullable (`TEXT` with no `NOT NULL`), hence `Option String`. -/
structure FeedbackRecord where
  id : Nat
  timestamp : Int
  rating : Int
  review_text : String
  user_response : Option String
  admin_summary : Option String
  recommended_actions : Option String
deriving DecidableEq, Repr

/-- The `feedback` table: rows in rowid (insertion) order, plus the next
AUTOINCREMENT id to assign. -/
structure FeedbackDatabase where
  records : List FeedbackRecord
  nextId : Nat
deriving DecidableEq, Repr

/-- A fresh database: no rows, AUTOINCREMENT starts at 1. -/
def emptyDB : FeedbackDatabase := ⟨[], 1⟩

/-- `FeedbackDatabase.insert_feedback`: appends a row with the assigned id
and insertion timestamp and returns the id (`cursor.lastrowid`). In Python
the three artifact arguments default to `None`; callers that omit them pass
`none` here. -/
def insert_feedback (db : FeedbackDatabase) (rating : Int) (review_text : String)
    (user_response admin_summary recommended_actions : Option String)
    (now : Int) : FeedbackDatabase × Nat :=
  let row : FeedbackRecord :=
    ⟨db.nextId, now, rating, review_text, user_response, admin_summary, recommended_actions⟩
  (⟨db.records ++ [row], db.nextId + 1⟩, db.nextId)

/-- Comparison used by `ORDER BY timestamp DESC`: `a` may come before `b`
when `a`'s timestamp is at least `b`'s. -/
def tsDesc (a b : FeedbackRecord) : Prop := b.timestamp ≤ a.timestamp

instance : DecidableRel tsDesc := fun a b =>
  inferInstanceAs (Decidable (b.timestamp ≤ a.timestamp))

/-- `FeedbackDatabase.get_all_feedback`: all rows, `ORDER BY timestamp DESC`.
Stable sort: rows with equal timestamps keep table (rowid) order. -/
def get_all_feedback (db : FeedbackDatabase) : List FeedbackRecord :=
  db.records.insertionSort tsDesc

/-- `FeedbackDatabase.get_recent_feedback`: `ORDER BY timestamp DESC LIMIT n`
(the Python default for the limit is 10). -/
def get_recent_feedback (db : FeedbackDatabase) (limit : Nat) : List FeedbackRecord :=
  (get_all_feedback db).take limit

/-- Round-half-to-even on rationals, Python's `round` tie rule. -/
def roundHalfEven (x : ℚ) : ℤ :=
  let f : ℤ := ⌊x⌋
  if x - f < 1/2 then f
  else if 1/2 < x - f then f + 1
  else if f % 2 = 0 then f else f + 1

/-- Python `round(x, 2)` on a rational. -/
def round2 (x : ℚ) : ℚ := (roundHalfEven (x * 100) : ℚ) / 100

/-- Result of `FeedbackDatabase.get_statistics`; `rating_distribution` is an
association list ordered as the SQL `GROUP BY rating ORDER BY rating`. -/
structure Statistics where
  total_submissions : Nat
  average_rating : ℚ
  rating_distribution : List (Int × Nat)
  recent_submissions_24h : Nat
deriving DecidableEq, Repr

/-- `SELECT rating, COUNT(*) FROM feedback GROUP BY rating ORDER BY rating`:
one entry per distinct rating value present, ascending, with its count. -/
def rating_distribution (db : FeedbackDatabase) : List (Int × Nat) :=
  let ratings := db.records.map FeedbackRecord.rating
  (ratings.dedup.insertionSort (· ≤ ·)).map fun r => (r, ratings.count r)

/-- `SELECT AVG(rating) FROM feedback`: `none` (SQL NULL) when the table is
empty, otherwise the exact mean. -/
def sqlAvgRating (db : FeedbackDatabase) : Option ℚ :=
  if db.records.isEmpty then none
  else some (((db.records.map FeedbackRecord.rating).sum : ℚ) / db.records.length)

/-- `FeedbackDatabase.get_statistics` at query time `now`. `avg_rating or 0`
maps NULL to 0 (a 0.0 mean is also falsy in Python, but `or 0` then still
yields the value 0, so `getD 0` is faithful); the 24h filter is the SQL
`datetime(timestamp) >= datetime('now', '-1 day')`. -/
def get_statistics (db : FeedbackDatabase) (now : Int) : Statistics :=
  { total_submissions := db.records.length
    average_rating := round2 ((sqlAvgRating db).getD 0)
    rating_distribution := rating_distribution db
    recent_submissions_24h :=
      (db.records.filter fun row => now - 86400 ≤ row.timestamp).length }

/-- `FeedbackDatabase.delete_feedback`: `DELETE FROM feedback WHERE id = ?`;
returns the new state and `cursor.rowcount > 0`. -/
def delete_feedback (db : FeedbackDatabase) (i : Nat) : FeedbackDatabase × Bool :=
  let remaining := db.records.filter fun row => row.id ≠ i
  (⟨remaining, db.nextId⟩, decide (remaining.length < db.records.length))

/-- Header row written by `DataFrame.to_csv` for `get_all_feedback`'s columns. -/
def csvHeader : List String :=
  ["id", "timestamp", "rating", "review_text",
   "user_response", "admin_summary", "recommended_actions"]

/-- One CSV data row for a record (NULL artifact cells export as empty). -/
def recordToRow (row : FeedbackRecord) : List String :=
  [toString row.id, toString row.timestamp, toString row.rating, row.review_text,
   row.user_response.getD "", row.admin_summary.getD "", row.recommended_actions.getD ""]

/-- `FeedbackDatabase.export_to_csv`: the file contents (header row then one
row per record of `get_all_feedback`) and the returned count `len(df)`. -/
def export_to_csv (db : FeedbackDatabase) : List (List String) × Nat :=
  let df := get_all_feedback db
  (csvHeader :: df.map recordToRow, df.length)

/-- Outcome of one remote `_call_api` attempt (see the module comment):
`some s` for a successful call returning `s`, `none` for a raised error. -/
abbrev ApiOutcome := Option String

/-- `LLMHandler.generate_user_response`: the API text on success, otherwise
the fixed fallback embedding the numeric rating. -/
def generate_user_response (rating : Int) (review_text : String)
    (api : ApiOutcome) : String :=
  match api with
  | some s => s
  | none =>
      "Thank you for your " ++ toString rating ++
        "-star review! We appreciate your feedback and will use it to improve our service."

/-- `LLMHandler.generate_admin_summary`: the API text on success, otherwise a
fallback chosen by rating band (low if the rating is at most 2, medium at
exactly 3, high otherwise). -/
def generate_admin_summary (rating : Int) (review_text : String)
    (api : ApiOutcome) : String :=
  match api with
  | some s => s
  | none =>
      if rating ≤ 2 then
        "Customer expressed dissatisfaction (" ++ toString rating ++
          " stars). Review requires attention."
      else if rating = 3 then
        "Mixed review (" ++ toString rating ++
          " stars). Customer had both positive and negative experiences."
      else
        "Positive review (" ++ toString rating ++ " stars). Customer had a good experience."

/-- `LLMHandler.generate_recommended_actions`: the API text on success,
otherwise a fixed bullet list chosen by rating band. -/
def generate_recommended_actions (rating : Int) (review_text : String)
    (api : ApiOutcome) : String :=
  match api with
  | some s => s
  | none =>
      if rating ≤ 2 then
        "• Contact customer directly to address concerns\n• Review and fix mentioned issues\n• Implement quality control measures"
      else if rating = 3 then
        "• Analyze feedback for improvement areas\n• Follow up with customer on experience\n• Train staff on customer service"
      else
        "• Thank customer for positive feedback\n• Continue current practices\n• Share success with team"

/-- The three artifacts returned by `LLMHandler.process_feedback`. -/
structure Artifacts where
  user_response : String
  admin_summary : String
  recommended_actions : String
deriving DecidableEq, Repr

/-- `LLMHandler.process_feedback`: the three generator sub-calls, each with
its own API outcome; every sub-call swallows its own failure, so the
function is total (no exception reaches the caller). -/
def process_feedback (rating : Int) (review_text : String)
    (apiU apiA apiR : ApiOutcome) : Artifacts :=
  ⟨generate_user_response rating review_text apiU,
   generate_admin_summary rating review_text apiA,
   generate_recommended_actions rating review_text apiR⟩

/-- Rating band used by the fallbacks: 0 for at most 2, 1 for exactly 3,
2 otherwise. -/
def ratingBand (rating : Int) : Nat :=
  if rating ≤ 2 then 0 else if rating = 3 then 1 else 2

/-- Python `str.strip()`: the string without leading and trailing
whitespace (whitespace taken as `Char.isWhitespace`). -/
def pyStrip (s : String) : String :=
  ⟨((s.data.dropWhile Char.isWhitespace).reverse.dropWhile Char.isWhitespace).reverse⟩

/-- Validation block of the dashboard submission handler
(`1_user_dashboard.py`): the error message shown, or `none` when the
submission proceeds. Only the review text is checked. -/
def validate_review (review_text : String) : Option String :=
  if pyStrip review_text = "" then
    some "Please write a review before submitting!"
  else if (pyStrip review_text).length < 10 then
    some "Please provide a more detailed review (at least 10 characters)"
  else
    none

/-- Session-state receipt stored by the dashboard after a submission. -/
structure Receipt where
  feedback_id : Nat
  rating : Int
  review : String
  response : String
deriving DecidableEq, Repr

/-- Result of one run of the dashboard submission handler. -/
structure SubmitOutcome where
  error : Option String
  db : FeedbackDatabase
  receipt : Option Receipt
  remote_calls : Nat
deriving DecidableEq, Repr

/-- The dashboard submission handler (`1_user_dashboard.py`, the
`if submit_button:` block): validate the review text, then call
`process_feedback` (three `_call_api` attempts) and `insert_feedback`.
On a validation error nothing else runs. -/
def submit (db : FeedbackDatabase) (rating : Int) (review_text : String)
    (now : Int) (apiU apiA apiR : ApiOutcome) : SubmitOutcome :=
  match validate_review review_text with
  | some msg => ⟨some msg, db, none, 0⟩
  | none =>
      let arts := process_feedback rating review_text apiU apiA apiR
      let ins := insert_feedback db rating review_text
        (some arts.user_response) (some arts.admin_summary)
        (some arts.recommended_actions) now
      ⟨none, ins.1, some ⟨ins.2, rating, review_text, arts.user_response⟩, 3⟩

/-- A database built by five dashboard-style inserts with ratings
5, 5, 4, 1, 3 (the spec's scenario data) at increasing timestamps. -/
def fiveDB : FeedbackDatabase :=
  let s1 := insert_feedback emptyDB 5 "excellent food and great service"
    (some "u1") (some "a1") (some "r1") 100
  let s2 := insert_feedback s1.1 5 "loved the friendly staff here"
    (some "u2") (some "a2") (some "r2") 200
  let s3 := insert_feedback s2.1 4 "good overall experience for us"
    (some "u3") (some "a3") (some "r3") 300
  let s4 := insert_feedback s3.1 1 "very poor service this evening"
    (some "u4") (some "a4") (some "r4") 400
  let s5 := insert_feedback s4.1 3 "average visit nothing special"
    (some "u5") (some "a5") (some "r5") 500
  s5.1

/-- A database built by two inserts that fall in the same clock second, so
both rows carry the same `CURRENT_TIMESTAMP` value. -/
def tieDB : FeedbackDatabase :=
  let s1 := insert_feedback emptyDB 5 "great food and friendly staff"
    (some "u1") (some "a1") (some "r1") 100
  (insert_feedback s1.1 4 "pretty good experience today"
    (some "u2") (some "a2") (some "r2") 100).1

/-- C1 (counterexample): the dashboard submission block never checks the
rating; with rating 6 and a long-enough review, validation passes, the
three generator calls run and a row is persisted, so the store's record
count changes and no ValidationError is raised. -/
theorem C1_counterexample :
    (submit emptyDB 6 "excellent service overall" 0 none none none).error = none ∧
    (submit emptyDB 6 "excellent service overall" 0 none none none).db.records.length
      = emptyDB.records.length + 1 ∧
    (submit emptyDB 6 "excellent service overall" 0 none none none).remote_calls = 3 := by
  decide

/-- C1 (amended): the user-dashboard submission path validates only the
review text; for every integer rating (inside or outside [1,5]) and every
review of trimmed length at least 10, validation passes and the submission
proceeds to generation (three remote attempts) and persistence, growing the
store by one record. -/
theorem C1_amended (db : FeedbackDatabase) (rating : Int) (review_text : String)
    (h : 10 ≤ (pyStrip review_text).length) (now : Int) (apiU apiA apiR : ApiOutcome) :
    (submit db rating review_text now apiU apiA apiR).error = none ∧
    (submit db rating review_text now apiU apiA apiR).db.records.length
      = db.records.length + 1 ∧
    (submit db rating review_text now apiU apiA apiR).remote_calls = 3 := by
  have hne : pyStrip review_text ≠ "" := by
    intro h0
    rw [h0] at h
    have h1 : ("" : String).length = 0 := rfl
    omega
  have hv : validate_review review_text = none := by
    unfold validate_review
    rw [if_neg hne, if_neg (by omega)]
  simp [submit, hv, insert_feedback]

/-- C1 (amended, witness): a concrete out-of-range rating that is accepted. -/
theorem C1_witness :
    10 ≤ (pyStrip "excellent service overall").length ∧
    ((submit emptyDB 7 "excellent service overall" 0 none none none).error = none ∧
     (submit emptyDB 7 "excellent service overall" 0 none none none).db.records.length
       = emptyDB.records.length + 1 ∧
     (submit emptyDB 7 "excellent service overall" 0 none none none).remote_calls = 3) :=
  ⟨by decide, C1_amended emptyDB 7 "excellent service overall" (by decide) 0 none none none⟩

/-- C4: every review whose trimmed length is below 10 (the empty string
included) is rejected by the dashboard with an error message; no remote
generation attempt is made, the store is unchanged and no receipt exists. -/
theorem C4_short_review_rejected (db : FeedbackDatabase) (rating : Int)
    (review_text : String) (h : (pyStrip review_text).length < 10)
    (now : Int) (apiU apiA apiR : ApiOutcome) :
    (∃ msg, (submit db rating review_text now apiU apiA apiR).error = some msg) ∧
    (submit db rating review_text now apiU apiA apiR).db = db ∧
    (submit db rating review_text now apiU apiA apiR).remote_calls = 0 ∧
    (submit db rating review_text now apiU apiA apiR).receipt = none := by
  have hv : ∃ msg, validate_review review_text = some msg := by
    unfold validate_review
    by_cases h0 : pyStrip review_text = ""
    · exact ⟨_, by rw [if_pos h0]⟩
    · exact ⟨_, by rw [if_neg h0, if_pos h]⟩
  obtain ⟨msg, hm⟩ := hv
  simp [submit, hm]

/-- C4 (witness): the concrete short review "short" is rejected. -/
theorem C4_witness :
    (pyStrip "short").length < 10 ∧
    ((∃ msg, (submit emptyDB 5 "short" 0 none none none).error = some msg) ∧
     (submit emptyDB 5 "short" 0 none none none).db = emptyDB ∧
     (submit emptyDB 5 "short" 0 none none none).remote_calls = 0 ∧
     (submit emptyDB 5 "short" 0 none none none).receipt = none) :=
  ⟨by decide, C4_short_review_rejected emptyDB 5 "short" (by decide) 0 none none none⟩

/-- C6: the export consists of one header row (with the seven columns in
the documented order) followed by exactly `total_submissions` data rows,
and the returned count equals `total_submissions`. -/
theorem C6_export_shape (db : FeedbackDatabase) (now : Int) :
    (export_to_csv db).2 = (get_statistics db now).total_submissions ∧
    (export_to_csv db).1.length = (get_statistics db now).total_submissions + 1 ∧
    (export_to_csv db).1.head? = some csvHeader ∧
    csvHeader = ["id", "timestamp", "rating", "review_text",
      "user_response", "admin_summary", "recommended_actions"] := by
  have hlen : (get_all_feedback db).length = db.records.length :=
    (List.perm_insertionSort tsDesc db.records).length_eq
  refine ⟨?_, ?_, rfl, rfl⟩
  · simpa [export_to_csv, get_statistics] using hlen
  · simp [export_to_csv, get_statistics, hlen]

/-- C10: the 24-hour window of `recent_submissions_24h` is inclusive at its
lower boundary: the count is exactly the number of rows with timestamp at
least `now - 86400`, and adding a row timestamped exactly 24 hours before
the query instant increases the count by one. -/
theorem C10_recent_window_inclusive (db : FeedbackDatabase) (now : Int)
    (row : FeedbackRecord) (hb : row.timestamp = now - 86400) :
    (get_statistics db now).recent_submissions_24h
      = (db.records.filter fun r => now - 86400 ≤ r.timestamp).length ∧
    (get_statistics ⟨db.records ++ [row], db.nextId + 1⟩ now).recent_submissions_24h
      = (get_statistics db now).recent_submissions_24h + 1 := by
  refine ⟨rfl, ?_⟩
  simp [get_statistics, List.filter_append, hb]

/-- C10 (witness): a record exactly 24 hours old is counted. -/
theorem C10_witness :
    ((⟨1, -86400, 5, "boundary case review", none, none, none⟩ :
        FeedbackRecord).timestamp = 0 - 86400) ∧
    ((get_statistics ⟨emptyDB.records ++
        [⟨1, -86400, 5, "boundary case review", none, none, none⟩],
        emptyDB.nextId + 1⟩ 0).recent_submissions_24h
      = (get_statistics emptyDB 0).recent_submissions_24h + 1) :=
  ⟨by decide,
   (C10_recent_window_inclusive emptyDB 0
      ⟨1, -86400, 5, "boundary case review", none, none, none⟩ (by decide)).2⟩

/-- A record whose three derived fields are all populated (non-NULL). -/
def fullyPopulated (row : FeedbackRecord) : Prop :=
  row.user_response.isSome ∧ row.admin_summary.isSome ∧ row.recommended_actions.isSome

instance (row : FeedbackRecord) : Decidable (fullyPopulated row) :=
  inferInstanceAs (Decidable (_ ∧ _ ∧ _))

/-- C2 (counterexample): the store itself does not force the invariant: the
schema leaves the three derived columns nullable and `insert_feedback`
defaults them to `None`, so one plain `insert_feedback` call yields a
persisted record whose three derived fields are all NULL. -/
theorem C2_counterexample :
    ((insert_feedback emptyDB 5 "the service was fine" none none none 0).1.records.map
        FeedbackRecord.user_response = [none]) ∧
    ((insert_feedback emptyDB 5 "the service was fine" none none none 0).1.records.map
        FeedbackRecord.admin_summary = [none]) ∧
    ((insert_feedback emptyDB 5 "the service was fine" none none none 0).1.records.map
        FeedbackRecord.recommended_actions = [none]) := by
  decide

/-- C2 (amended): records written through the dashboard submission path
always carry all three derived fields (the insert is one all-or-nothing
row write), and dashboard submissions and deletions preserve the
all-fields-populated invariant; the store's `insert_feedback` itself,
however, permits NULL derived fields. -/
theorem C2_amended (db : FeedbackDatabase) (rating : Int) (review_text : String)
    (now : Int) (apiU apiA apiR : ApiOutcome)
    (hdb : ∀ row ∈ db.records, fullyPopulated row) :
    (∀ row ∈ (submit db rating review_text now apiU apiA apiR).db.records,
      fullyPopulated row) ∧
    (∀ i : Nat, ∀ row ∈ (delete_feedback db i).1.records, fullyPopulated row) := by
  constructor
  · intro row hrow
    unfold submit at hrow
    rcases hv : validate_review review_text with _ | msg
    · rw [hv] at hrow
      simp only [insert_feedback, List.mem_append, List.mem_singleton] at hrow
      rcases hrow with hrow | hrow
      · exact hdb row hrow
      · subst hrow
        exact ⟨rfl, rfl, rfl⟩
    · rw [hv] at hrow
      exact hdb row hrow
  · intro i row hrow
    unfold delete_feedback at hrow
    exact hdb row (List.mem_of_mem_filter hrow)

/-- C2 (amended, witness): one dashboard submission on an empty store. -/
theorem C2_witness :
    (∀ row ∈ emptyDB.records, fullyPopulated row) ∧
    (∀ row ∈ (submit emptyDB 5 "service was quite good" 0 none none none).db.records,
      fullyPopulated row) :=
  ⟨by simp [emptyDB],
   (C2_amended emptyDB 5 "service was quite good" 0 none none none
      (by simp [emptyDB])).1⟩

/-- C3: when the three generator sub-calls all fail, `process_feedback`
still returns three non-empty artifacts; the user-response fallback embeds
the numeric rating, the fallbacks do not depend on the review text, and the
admin-summary and recommended-actions fallbacks differ between any two
ratings in distinct bands (at most 2 / exactly 3 / at least 4). No failure
escapes `process_feedback` (it is a total function; each sub-call catches
its own exception). -/
theorem C3_fallback_artifacts (rating : Int) (review_text : String)
    (h1 : 1 ≤ rating) (h5 : rating ≤ 5) :
    (process_feedback rating review_text none none none).user_response ≠ "" ∧
    (process_feedback rating review_text none none none).admin_summary ≠ "" ∧
    (process_feedback rating review_text none none none).recommended_actions ≠ "" ∧
    (∃ s t, (process_feedback rating review_text none none none).user_response
        = s ++ toString rating ++ t) ∧
    (∀ other : String, process_feedback rating other none none none
        = process_feedback rating review_text none none none) ∧
    (∀ r2 : Int, 1 ≤ r2 → r2 ≤ 5 → ratingBand r2 ≠ ratingBand rating →
      (process_feedback r2 review_text none none none).admin_summary
          ≠ (process_feedback rating review_text none none none).admin_summary ∧
      (process_feedback r2 review_text none none none).recommended_actions
          ≠ (process_feedback rating review_text none none none).recommended_actions) := by
  refine ⟨?_, ?_, ?_,
    ⟨"Thank you for your ",
     "-star review! We appreciate your feedback and will use it to improve our service.",
     rfl⟩,
    fun _ => rfl, ?_⟩
  · simp only [process_feedback, generate_user_response]
    interval_cases rating <;> decide
  · simp only [process_feedback, generate_admin_summary]
    interval_cases rating <;> decide
  · simp only [process_feedback, generate_recommended_actions]
    interval_cases rating <;> decide
  · intro r2 h2a h2b
    simp only [process_feedback, generate_admin_summary, generate_recommended_actions,
      ratingBand]
    interval_cases rating <;> interval_cases r2 <;> decide

/-- C3 (witness): the all-failures case at rating 1. -/
theorem C3_witness :
    (1 ≤ (1 : Int) ∧ (1 : Int) ≤ 5) ∧
    ((process_feedback 1 "bad" none none none).user_response ≠ "" ∧
     (process_feedback 1 "bad" none none none).admin_summary ≠ "" ∧
     (process_feedback 1 "bad" none none none).recommended_actions ≠ "" ∧
     (∃ s t, (process_feedback 1 "bad" none none none).user_response
         = s ++ toString (1 : Int) ++ t) ∧
     (∀ other : String, process_feedback 1 other none none none
         = process_feedback 1 "bad" none none none) ∧
     (∀ r2 : Int, 1 ≤ r2 → r2 ≤ 5 → ratingBand r2 ≠ ratingBand 1 →
       (process_feedback r2 "bad" none none none).admin_summary
           ≠ (process_feedback 1 "bad" none none none).admin_summary ∧
       (process_feedback r2 "bad" none none none).recommended_actions
           ≠ (process_feedback 1 "bad" none none none).recommended_actions)) :=
  ⟨⟨by decide, by decide⟩, C3_fallback_artifacts 1 "bad" (by decide) (by decide)⟩

/-- C5: the rating distribution's counts sum to the total number of
submissions, and the distribution carries an entry for a rating exactly
when some stored record has that rating. -/
theorem C5_distribution_invariants (db : FeedbackDatabase) (now : Int) :
    (((get_statistics db now).rating_distribution).map Prod.snd).sum
      = (get_statistics db now).total_submissions ∧
    ∀ r : Int, (∃ c, (r, c) ∈ (get_statistics db now).rating_distribution) ↔
      ∃ row ∈ db.records, row.rating = r := by
  have hperm : ((db.records.map FeedbackRecord.rating).dedup.insertionSort (· ≤ ·)).Perm
      (db.records.map FeedbackRecord.rating).dedup :=
    List.perm_insertionSort _ _
  constructor
  · show ((rating_distribution db).map Prod.snd).sum = db.records.length
    have h1 : (rating_distribution db).map Prod.snd
        = ((db.records.map FeedbackRecord.rating).dedup.insertionSort (· ≤ ·)).map
            (fun r => (db.records.map FeedbackRecord.rating).count r) := by
      simp only [rating_distribution, List.map_map]
      rfl
    rw [h1, (hperm.map _).sum_eq, List.sum_map_count_dedup_eq_length, List.length_map]
  · intro r
    show (∃ c, (r, c) ∈ rating_distribution db) ↔ _
    constructor
    · rintro ⟨c, hc⟩
      simp only [rating_distribution, List.mem_map] at hc
      obtain ⟨x, hx, hxe⟩ := hc
      obtain ⟨hxr, -⟩ := Prod.mk.injEq .. ▸ hxe
      subst hxr
      have hd : x ∈ (db.records.map FeedbackRecord.rating).dedup := hperm.mem_iff.mp hx
      obtain ⟨row, hrow, hrr⟩ := List.mem_map.mp (List.mem_dedup.mp hd)
      exact ⟨row, hrow, hrr⟩
    · rintro ⟨row, hrow, hrr⟩
      have h1 : r ∈ db.records.map FeedbackRecord.rating :=
        List.mem_map.mpr ⟨row, hrow, hrr⟩
      have h3 : r ∈ (db.records.map FeedbackRecord.rating).dedup.insertionSort (· ≤ ·) :=
        hperm.mem_iff.mpr (List.mem_dedup.mpr h1)
      exact ⟨_, List.mem_map.mpr ⟨r, h3, rfl⟩⟩

/-- Removing the rows that match an id shortens the table exactly when a
row with that id exists. -/
theorem filter_ne_length_lt_iff (l : List FeedbackRecord) (i : Nat) :
    ((l.filter fun row => row.id ≠ i).length < l.length) ↔ ∃ row ∈ l, row.id = i := by
  induction l with
  | nil => simp
  | cons x xs ih =>
    by_cases hx : x.id = i
    · have hfc : (x :: xs).filter (fun row => row.id ≠ i)
          = xs.filter (fun row => row.id ≠ i) := by
        simp [List.filter_cons, hx]
      rw [hfc, List.length_cons]
      constructor
      · intro _
        exact ⟨x, List.mem_cons_self x xs, hx⟩
      · intro _
        exact Nat.lt_succ_of_le (List.length_filter_le _ _)
    · have hfc : (x :: xs).filter (fun row => row.id ≠ i)
          = x :: xs.filter (fun row => row.id ≠ i) := by
        simp [List.filter_cons, hx]
      rw [hfc, List.length_cons, List.length_cons]
      have harith : (xs.filter fun row => row.id ≠ i).length + 1 < xs.length + 1
          ↔ (xs.filter fun row => row.id ≠ i).length < xs.length := by omega
      rw [harith, ih]
      constructor
      · rintro ⟨row, hrow, hid⟩
        exact ⟨row, List.mem_cons_of_mem x hrow, hid⟩
      · rintro ⟨row, hrow, hid⟩
        rcases List.mem_cons.mp hrow with h | h
        · exact absurd (h ▸ hid) hx
        · exact ⟨row, h, hid⟩

/-- With unique ids, deleting an existing id removes exactly one row. -/
theorem length_filter_ne_of_nodup (l : List FeedbackRecord) (i : Nat)
    (hn : (l.map FeedbackRecord.id).Nodup) (hm : ∃ row ∈ l, row.id = i) :
    (l.filter fun row => row.id ≠ i).length + 1 = l.length := by
  induction l with
  | nil => simp at hm
  | cons x xs ih =>
    rw [List.map_cons, List.nodup_cons] at hn
    obtain ⟨hx_notin, hn_xs⟩ := hn
    by_cases hx : x.id = i
    · have hfc : (x :: xs).filter (fun row => row.id ≠ i)
          = xs.filter (fun row => row.id ≠ i) := by
        simp [List.filter_cons, hx]
      have hall : xs.filter (fun row => row.id ≠ i) = xs := by
        rw [List.filter_eq_self]
        intro row hrow
        simp only [ne_eq, decide_eq_true_eq]
        intro hri
        apply hx_notin
        rw [hx, ← hri]
        exact List.mem_map.mpr ⟨row, hrow, rfl⟩
      rw [hfc, hall, List.length_cons]
    · have hfc : (x :: xs).filter (fun row => row.id ≠ i)
          = x :: xs.filter (fun row => row.id ≠ i) := by
        simp [List.filter_cons, hx]
      have hm_xs : ∃ row ∈ xs, row.id = i := by
        obtain ⟨row, hrow, hid⟩ := hm
        rcases List.mem_cons.mp hrow with h | h
        · exact absurd (h ▸ hid) hx
        · exact ⟨row, h, hid⟩
      have := ih hn_xs hm_xs
      rw [hfc, List.length_cons, List.length_cons]
      omega

/-- C8: `delete_feedback` answers true exactly when a row with the given id
exists; when one does (ids being unique, as the primary key guarantees),
the total shrinks by exactly one, a second delete of the same id answers
false, and the second delete leaves the store unchanged. -/
theorem C8_delete_semantics (db : FeedbackDatabase) (i : Nat) (now : Int)
    (hn : (db.records.map FeedbackRecord.id).Nodup) :
    ((delete_feedback db i).2 = true ↔ ∃ row ∈ db.records, row.id = i) ∧
    ((∃ row ∈ db.records, row.id = i) →
      (get_statistics (delete_feedback db i).1 now).total_submissions + 1
          = (get_statistics db now).total_submissions ∧
      (delete_feedback (delete_feedback db i).1 i).2 = false ∧
      (delete_feedback (delete_feedback db i).1 i).1 = (delete_feedback db i).1) := by
  have hidem : ((db.records.filter fun row => row.id ≠ i).filter fun row => row.id ≠ i)
      = db.records.filter fun row => row.id ≠ i := by
    rw [List.filter_filter]
    simp
  constructor
  · simp only [delete_feedback, decide_eq_true_eq]
    exact filter_ne_length_lt_iff db.records i
  · intro hm
    refine ⟨?_, ?_, ?_⟩
    · simp only [delete_feedback, get_statistics]
      exact length_filter_ne_of_nodup db.records i hn hm
    · simp only [delete_feedback, hidem]
      simp
    · simp only [delete_feedback, hidem]

/-- C8 (witness): deleting id 1 from the five-record store. -/
theorem C8_witness :
    (fiveDB.records.map FeedbackRecord.id).Nodup ∧
    (((delete_feedback fiveDB 1).2 = true ↔ ∃ row ∈ fiveDB.records, row.id = 1) ∧
     ((∃ row ∈ fiveDB.records, row.id = 1) →
       (get_statistics (delete_feedback fiveDB 1).1 0).total_submissions + 1
           = (get_statistics fiveDB 0).total_submissions ∧
       (delete_feedback (delete_feedback fiveDB 1).1 1).2 = false ∧
       (delete_feedback (delete_feedback fiveDB 1).1 1).1 = (delete_feedback fiveDB 1).1)) :=
  ⟨by decide, C8_delete_semantics fiveDB 1 0 (by decide)⟩

/-- C9: the reported average rating is the arithmetic mean of the stored
ratings rounded to two decimal places, and 0 for an empty store. -/
theorem C9_average_rating (db : FeedbackDatabase) (now : Int) :
    (db.records ≠ [] →
      (get_statistics db now).average_rating
        = round2 (((db.records.map FeedbackRecord.rating).sum : ℚ) / db.records.length)) ∧
    (db.records = [] → (get_statistics db now).average_rating = 0) := by
  constructor
  · intro h
    have he : db.records.isEmpty = false := List.isEmpty_eq_false.mpr h
    simp [get_statistics, sqlAvgRating, he]
  · intro h
    have h1 : roundHalfEven (0 * 100) = 0 := by
      norm_num [roundHalfEven]
    have h0 : round2 0 = 0 := by
      rw [round2, h1]
      norm_num
    simp [get_statistics, sqlAvgRating, h, h0]

/-- C9 (witness): ratings 5, 5, 4, 1, 3 average to 3.6. -/
theorem C9_witness :
    fiveDB.records ≠ [] ∧
    (get_statistics fiveDB 0).average_rating
      = round2 (((fiveDB.records.map FeedbackRecord.rating).sum : ℚ) / fiveDB.records.length) :=
  ⟨by decide, (C9_average_rating fiveDB 0).1 (by decide)⟩

/-- Inserting an element that must not precede any list element lands at
the end. -/
theorem orderedInsert_eq_append (a : FeedbackRecord) (l : List FeedbackRecord)
    (h : ∀ b ∈ l, ¬ tsDesc a b) : l.orderedInsert tsDesc a = l ++ [a] := by
  induction l with
  | nil => rfl
  | cons x xs ih =>
    rw [List.orderedInsert, if_neg (h x (List.mem_cons_self x xs)),
      ih fun b hb => h b (List.mem_cons_of_mem x hb)]
    rfl

/-- With strictly increasing timestamps down the table, the stable
timestamp-descending sort is exactly the reversed table. -/
theorem insertionSort_eq_reverse (l : List FeedbackRecord)
    (h : l.Pairwise fun a b => a.timestamp < b.timestamp) :
    l.insertionSort tsDesc = l.reverse := by
  induction l with
  | nil => rfl
  | cons x xs ih =>
    rw [List.pairwise_cons] at h
    obtain ⟨hx, hxs⟩ := h
    rw [List.insertionSort, ih hxs, orderedInsert_eq_append, List.reverse_cons]
    intro b hb
    rw [List.mem_reverse] at hb
    have := hx b hb
    unfold tsDesc
    omega

/-- C7 (counterexample): two rows inserted within the same clock second
carry equal timestamps; `ORDER BY timestamp DESC` then keeps them in table
order (ascending id), so the returned order does not agree with descending
assigned id even though timestamps are monotone non-decreasing with id. -/
theorem C7_counterexample :
    (tieDB.records.Pairwise fun a b => a.timestamp ≤ b.timestamp) ∧
    (tieDB.records.Pairwise fun a b => a.id < b.id) ∧
    (get_all_feedback tieDB).map FeedbackRecord.id = [1, 2] ∧
    ¬ ((get_all_feedback tieDB).map FeedbackRecord.id).Pairwise (fun a b => b < a) := by
  decide

/-- C7 (amended): `get_all_feedback` always returns a newest-first
(timestamp-descending) reordering of the table, and `get_recent_feedback`
returns its first `limit` entries (hence at most `limit` records forming an
initial segment). When timestamps are strictly increasing with insertion
order, the returned order is exactly reversed insertion order and so also
descends in assigned id; with merely non-decreasing timestamps rows that
share a second stay in ascending-id order. -/
theorem C7_amended (db : FeedbackDatabase) (limit : Nat)
    (hts : db.records.Pairwise fun a b => a.timestamp < b.timestamp) :
    get_all_feedback db = db.records.reverse ∧
    ((db.records.Pairwise fun a b => a.id < b.id) →
      (get_all_feedback db).Pairwise fun a b => b.id < a.id) ∧
    get_recent_feedback db limit = (get_all_feedback db).take limit ∧
    (get_recent_feedback db limit).length ≤ limit ∧
    ∃ rest, get_all_feedback db = get_recent_feedback db limit ++ rest := by
  have hall : get_all_feedback db = db.records.reverse :=
    insertionSort_eq_reverse db.records hts
  refine ⟨hall, ?_, rfl, ?_, ⟨(get_all_feedback db).drop limit, ?_⟩⟩
  · intro hid
    rw [hall]
    exact List.pairwise_reverse.mpr hid
  · rw [get_recent_feedback, List.length_take]
    exact min_le_left _ _
  · rw [get_recent_feedback, List.take_append_drop]

/-- C7 (amended, witness): the five-record store with strictly increasing
timestamps is returned newest first, ids descending. -/
theorem C7_witness :
    (fiveDB.records.Pairwise fun a b => a.timestamp < b.timestamp) ∧
    (get_all_feedback fiveDB = fiveDB.records.reverse ∧
     ((fiveDB.records.Pairwise fun a b => a.id < b.id) →
       (get_all_feedback fiveDB).Pairwise fun a b => b.id < a.id) ∧
     get_recent_feedback fiveDB 3 = (get_all_feedback fiveDB).take 3 ∧
     (get_recent_feedback fiveDB 3).length ≤ 3 ∧
     ∃ rest, get_all_feedback fiveDB = get_recent_feedback fiveDB 3 ++ rest) :=
  ⟨by decide, C7_amended fiveDB 3 (by decide)⟩

end Feedback
